import Mathlib

/-!
# Verification of the TTS benchmarking rating core

Shallow embedding of the rating/persistence core of the TTS benchmarking
dashboard (`database.py`, `benchmarking_engine.py`, the vote handling in
`app.py`) together with proofs about it.

Conventions of the embedding:
* SQLite tables become Lean association lists (insertion order = autoincrement
  id order); `INSERT` appends, `UPDATE ... WHERE provider = ?` maps over all
  rows with that key (the key is UNIQUE so at most one row matches).
* Python floats used for ratings become `ℝ` (the ELO formula uses a real
  exponential); latencies, sizes and averages become `ℚ`.
* Out-of-range list indexing (which Python would turn into an exception) is
  modelled totally with a default of `0`; every use in the theorems below is
  in range.
* Python-level dynamic argument binding is modelled explicitly where a call
  site and a function signature disagree: see `PySig`, `PyCallArgs`,
  `callBinds` below.
-/

/-- One row of the `elo_ratings` table (src/database.py lines 68-78),
minus the id/timestamp columns, which no claim mentions.  The table has no
language column: it is keyed by `provider` alone (`provider TEXT UNIQUE`). -/
structure EloRow where
  rating : ℝ
  games_played : ℕ
  wins : ℕ
  losses : ℕ

/-- One row of the `user_votes` table (src/database.py lines 107-118),
minus id/timestamp/metadata. -/
structure VoteRow where
  winner : String
  loser : String
  vote_type : String
  text_sample : String
  session_id : String

/-- One row of the `provider_stats` table (src/database.py lines 81-91),
minus id/timestamp. -/
structure ProviderStats where
  total_tests : ℕ
  successful_tests : ℕ
  avg_latency : ℚ
  avg_file_size : ℚ
deriving DecidableEq

/-- The fields of the `BenchmarkResult` dataclass
(src/benchmarking_engine.py lines 19-40) that the verified operations read;
`error_message : Optional[str]` is modelled with `""` for `None`. -/
structure BenchmarkResult where
  provider : String
  sample_id : String
  blind_label : String
  text : String
  success : Bool
  latency_ms : ℚ
  file_size_bytes : ℚ
  error_message : String
deriving DecidableEq

/-- The mutable state of `BenchmarkDatabase`: the four tables the claims
touch.  `benchmark_results` rows are kept as the saved `BenchmarkResult`
values. -/
structure DBState where
  elo : List (String × EloRow)
  votes : List VoteRow
  stats : List (String × ProviderStats)
  results : List BenchmarkResult

namespace DB

/-- `expected_winner`/`expected_loser` of src/database.py lines 243-244:
`1 / (1 + 10**((b - a) / 400))`, the ELO expected score of a rated `a`
against a rated `b` (the spec names this `expected_score`). -/
noncomputable def expected_score (a b : ℝ) : ℝ :=
  1 / (1 + (10 : ℝ) ^ ((b - a) / 400))

/-- `BenchmarkDatabase.init_elo_rating` (src/database.py lines 223-235):
`INSERT OR IGNORE` of a fresh row with zero counters. -/
def init_elo_rating (s : DBState) (provider : String) (rating : ℝ) : DBState :=
  if (s.elo.lookup provider).isSome then s
  else { s with elo := s.elo ++ [(provider, ⟨rating, 0, 0, 0⟩)] }

/-- `BenchmarkDatabase.get_elo_rating` (src/database.py lines 206-221):
returns the stored rating, or lazily initialises the provider at 1500.0 and
returns 1500.0. -/
noncomputable def get_elo_rating (s : DBState) (provider : String) : DBState × ℝ :=
  match (s.elo.lookup provider) with
  | some row => (s, row.rating)
  | none => (init_elo_rating s provider 1500, 1500)

/-- The effect of one SQL `UPDATE elo_ratings ... WHERE provider = ?`:
apply `f` to every row keyed by `provider` (the key is UNIQUE, so at most
one row matches). -/
def updateEloRow (s : DBState) (provider : String) (f : EloRow → EloRow) : DBState :=
  { s with elo := s.elo.map (fun e => if e.1 == provider then (e.1, f e.2) else e) }

/-- `BenchmarkDatabase.update_elo_ratings` (src/database.py lines 237-271):
reads both ratings (lazily initialising absent providers), applies the ELO
formula, then runs the two `UPDATE` statements (winner row first), and
returns the pair of new ratings. -/
noncomputable def update_elo_ratings (s : DBState) (winner loser : String) (k_factor : ℝ) :
    DBState × ℝ × ℝ :=
  let p1 := get_elo_rating s winner
  let winner_rating := p1.2
  let p2 := get_elo_rating p1.1 loser
  let loser_rating := p2.2
  let expected_winner := expected_score winner_rating loser_rating
  let expected_loser := expected_score loser_rating winner_rating
  let new_winner_rating := winner_rating + k_factor * (1 - expected_winner)
  let new_loser_rating := loser_rating + k_factor * (0 - expected_loser)
  let s3 := updateEloRow p2.1 winner (fun r =>
    { r with rating := new_winner_rating, games_played := r.games_played + 1,
             wins := r.wins + 1 })
  let s4 := updateEloRow s3 loser (fun r =>
    { r with rating := new_loser_rating, games_played := r.games_played + 1,
             losses := r.losses + 1 })
  (s4, new_winner_rating, new_loser_rating)

/-- `BenchmarkDatabase.save_user_vote` (src/database.py lines 383-398):
appends one row to `user_votes` with `vote_type = 'user_preference'`. -/
def save_user_vote (s : DBState) (winner loser text_sample session_id : String) : DBState :=
  { s with votes := s.votes ++ [⟨winner, loser, "user_preference", text_sample, session_id⟩] }

/-- `BenchmarkDatabase.update_provider_stats` (src/database.py lines
159-204), translated literally.  Note that on the update path
`successful_tests` has already been incremented before it is used in the
running-average formula. -/
def update_provider_stats (s : DBState) (provider : String) (result : BenchmarkResult) :
    DBState :=
  match (s.stats.lookup provider) with
  | some st =>
      let total_tests := st.total_tests + 1
      let successful_tests := st.successful_tests + (if result.success then 1 else 0)
      let new_avg_latency :=
        if result.success then
          (if successful_tests > 0 then
            ((st.avg_latency * successful_tests) + result.latency_ms) / (successful_tests + 1)
          else result.latency_ms)
        else st.avg_latency
      let new_avg_file_size :=
        if result.success then
          (if successful_tests > 0 then
            ((st.avg_file_size * successful_tests) + result.file_size_bytes) /
              (successful_tests + 1)
          else result.file_size_bytes)
        else st.avg_file_size
      { s with stats := s.stats.map (fun e =>
          if e.1 == provider then
            (e.1, ⟨total_tests, successful_tests, new_avg_latency, new_avg_file_size⟩)
          else e) }
  | none =>
      { s with stats := s.stats ++ [(provider,
          ⟨1, if result.success then 1 else 0,
           if result.success then result.latency_ms else 0,
           if result.success then result.file_size_bytes else 0⟩)] }

/-- `BenchmarkDatabase.save_benchmark_result` (src/database.py lines
123-157): appends the row to `benchmark_results`, then updates the
provider statistics. -/
def save_benchmark_result (s : DBState) (result : BenchmarkResult) : DBState :=
  update_provider_stats { s with results := s.results ++ [result] } result.provider result

end DB

/-! ## Python call binding

`app.py` calls the database methods with argument lists that do not match
the signatures in `database.py`.  To keep that mismatch visible in the
embedding (rather than silently "fixing" the calls), CPython's binding of
positional and keyword arguments to declared parameters is modelled: a call
that does not bind raises `TypeError` before the function body runs. -/

/-- A Python function signature: declared parameter names in order (after
`self`), where the last `defaults` of them carry default values. -/
structure PySig where
  params : List String
  defaults : ℕ

/-- A Python call site: how many positional arguments it passes (after
`self`) and which keyword argument names it passes. -/
structure PyCallArgs where
  positional : ℕ
  keywords : List String

/-- CPython argument binding: a call binds iff there are not more
positional arguments than parameters, every keyword names a declared
parameter not already bound positionally, and every parameter without a
default is bound.  Otherwise the call raises `TypeError`. -/
def callBinds (sig : PySig) (c : PyCallArgs) : Bool :=
  decide (c.positional ≤ sig.params.length) &&
  c.keywords.all (fun k =>
    sig.params.contains k && !((sig.params.take c.positional).contains k)) &&
  ((sig.params.take (sig.params.length - sig.defaults)).drop c.positional).all
    (fun p => c.keywords.contains p)

/-- Signature of `BenchmarkDatabase.get_elo_rating` (src/database.py
line 206): `(self, provider)`. -/
def get_elo_rating_sig : PySig := ⟨["provider"], 0⟩

/-- Signature of `BenchmarkDatabase.update_elo_ratings` (src/database.py
line 237): `(self, winner, loser, k_factor=32)`. -/
def update_elo_ratings_sig : PySig := ⟨["winner", "loser", "k_factor"], 1⟩

/-- Signature of `BenchmarkDatabase.save_user_vote` (src/database.py
line 383): `(self, winner, loser, text_sample, session_id="default")`. -/
def save_user_vote_sig : PySig := ⟨["winner", "loser", "text_sample", "session_id"], 1⟩

/-- The call `db.get_elo_rating(provider, language)` at src/app.py
lines 919-920: two positional arguments. -/
def app_get_elo_rating_call : PyCallArgs := ⟨2, []⟩

/-- The call `db.update_elo_ratings(winner, loser, k_factor=32,
language=language)` at src/app.py lines 923-925. -/
def app_update_elo_ratings_call : PyCallArgs := ⟨2, ["k_factor", "language"]⟩

/-- The call `db.save_user_vote(winner, loser, text, session_id=...,
language=language)` at src/app.py lines 929-935. -/
def app_save_user_vote_call : PyCallArgs := ⟨3, ["session_id", "language"]⟩

namespace App

/-- The `try:` block of `handle_blind_test_vote` (src/app.py lines
917-935), with each database call guarded by CPython argument binding
against the signatures actually declared in src/database.py.  `.error`
is a raised exception escaping the block. -/
noncomputable def voteTryBlock (s : DBState) (winner_result loser_result : BenchmarkResult)
    (_language : String) (save_vote : Bool) : Except String DBState :=
  if callBinds get_elo_rating_sig app_get_elo_rating_call then
    let q1 := DB.get_elo_rating s winner_result.provider
    if callBinds get_elo_rating_sig app_get_elo_rating_call then
      let q2 := DB.get_elo_rating q1.1 loser_result.provider
      if callBinds update_elo_ratings_sig app_update_elo_ratings_call then
        let q3 := DB.update_elo_ratings q2.1 winner_result.provider loser_result.provider 32
        if save_vote then
          if callBinds save_user_vote_sig app_save_user_vote_call then
            .ok (DB.save_user_vote q3.1 winner_result.provider loser_result.provider
              (if winner_result.text.length > 100 then winner_result.text.take 100 ++ "..."
               else winner_result.text)
              "blind_test_session")
          else .error "TypeError: save_user_vote got an unexpected keyword argument"
        else .ok q3.1
      else .error "TypeError: update_elo_ratings got an unexpected keyword argument"
    else .error "TypeError: get_elo_rating takes 2 positional arguments but 3 were given"
  else .error "TypeError: get_elo_rating takes 2 positional arguments but 3 were given"

/-- `handle_blind_test_vote` (src/app.py lines 912-938): runs the `try:`
block; on an exception it catches it, shows `st.error(...)` (the returned
`Option String`) and returns normally with the state untouched by the
failed block. -/
noncomputable def handle_blind_test_vote (s : DBState)
    (winner_result loser_result : BenchmarkResult) (language : String) (save_vote : Bool) :
    DBState × Option String :=
  match voteTryBlock s winner_result loser_result language save_vote with
  | .ok s2 => (s2, none)
  | .error e => (s, some ("Error updating ratings: " ++ e))

/-- The loop body of src/app.py lines 817-818 (`for loser_result in
losers: handle_blind_test_vote(..., save_vote=False)`), instrumented: the
accumulator carries the database state, the `st.error` messages shown, and
the trace of handler invocations `(winner, loser, save_vote)`. -/
noncomputable def voteLoopStep (winner_result : BenchmarkResult) (language : String)
    (acc : DBState × List String × List (String × String × Bool))
    (loser_result : BenchmarkResult) :
    DBState × List String × List (String × String × Bool) :=
  let h := handle_blind_test_vote acc.1 winner_result loser_result language false
  (h.1, acc.2.1 ++ h.2.toList,
   acc.2.2 ++ [(winner_result.provider, loser_result.provider, false)])

/-- One vote submission in `blind_test_page` (src/app.py lines 806-823):
find the winning sample, then call `handle_blind_test_vote` once per loser
with `save_vote=False`, and once more for `losers[0]` with
`save_vote=True`.  Returns the final state, the `st.error` messages shown,
and the trace of handler invocations `(winner, loser, save_vote)`. -/
noncomputable def submitBlindTestVote (s : DBState) (samples : List BenchmarkResult)
    (selected_label : String) (language : String) :
    DBState × List String × List (String × String × Bool) :=
  match samples.find? (fun r => r.blind_label == selected_label) with
  | none => (s, [], [])
  | some winner_result =>
    let losers := samples.filter (fun r => !(r.blind_label == selected_label))
    match losers with
    | [] => (s, [], [])
    | loser0 :: _ =>
      let a1 := losers.foldl (voteLoopStep winner_result language) (s, [], [])
      let h2 := handle_blind_test_vote a1.1 winner_result loser0 language true
      (h2.1, a1.2.1 ++ h2.2.toList,
       a1.2.2 ++ [(winner_result.provider, loser0.provider, true)])

end App

/-! ## Python numeric helpers -/

/-- Python `int(q)` on a float: truncation toward zero.  For a rational
`q`, `q.num.div q.den` is exactly that truncation. -/
def pyInt (q : ℚ) : ℤ := q.num.tdiv q.den

/-- Python `float.is_integer()`: a rational is integral iff its reduced
denominator is 1. -/
def isInteger (q : ℚ) : Bool := q.den == 1

/-- Python list indexing `data[i]`, total with default 0; every use below
is in range (out of range, Python raises `IndexError`). -/
def getQ (data : List ℚ) (i : ℤ) : ℚ := data.getD i.toNat 0

/-- Python `sorted(data)` for numeric data (stable; equal rationals are
equal, so any correct sort agrees). -/
def pySorted (data : List ℚ) : List ℚ := data.insertionSort (· ≤ ·)

namespace PyStats

/-- `statistics.mean`: sum divided by length (Python raises on an empty
list; the embedding returns 0 there, and every use below is non-empty). -/
def mean (data : List ℚ) : ℚ := data.sum / data.length

/-- `statistics.median`: middle element of the sorted data for odd length,
average of the two middle elements for even length. -/
def median (data : List ℚ) : ℚ :=
  let s := pySorted data
  let n := s.length
  if n % 2 = 1 then getQ s (n / 2)
  else (getQ s (n / 2 - 1) + getQ s (n / 2)) / 2

end PyStats

namespace Engine

/-- `BenchmarkEngine._percentile` (src/benchmarking_engine.py lines
257-269); the local `percentile` helper inside
`BenchmarkDatabase.get_latency_stats_by_provider` (src/database.py lines
464-473) is the same computation applied to already-sorted data. -/
def percentile (data : List ℚ) (p : ℚ) : ℚ :=
  if data.isEmpty then 0
  else
    let sorted_data := pySorted data
    let index := (p / 100) * ((sorted_data.length : ℚ) - 1)
    if isInteger index then getQ sorted_data (pyInt index)
    else
      let lower := getQ sorted_data (pyInt index)
      let upper := getQ sorted_data (pyInt index + 1)
      lower + (upper - lower) * (index - (pyInt index : ℚ))

/-- Modelled from the spec (§4.4): the "nearest-rank with interpolation"
percentile — for percentile `p` over the sorted 0-indexed array, take
`index = p/100*(n-1)` and linearly interpolate between the floor and ceil
neighbours (which coincide when `index` is integral). -/
def percentileSpec (data : List ℚ) (p : ℚ) : ℚ :=
  let s := pySorted data
  let index := (p / 100) * ((s.length : ℚ) - 1)
  let lower := getQ s ⌊index⌋
  let upper := getQ s ⌈index⌉
  lower + (upper - lower) * (index - (⌊index⌋ : ℚ))

/-- One step of building the `sample_results` dict
(src/benchmarking_engine.py lines 331-336): append the result to its
sample's list, creating the key on first sight (dicts preserve insertion
order). -/
def addToSampleGroup (groups : List (String × List BenchmarkResult))
    (r : BenchmarkResult) : List (String × List BenchmarkResult) :=
  if groups.any (fun g => g.1 == r.sample_id) then
    groups.map (fun g => if g.1 == r.sample_id then (g.1, g.2 ++ [r]) else g)
  else groups ++ [(r.sample_id, [r])]

/-- The `sample_results` dict of `BenchmarkEngine.update_elo_ratings`:
successful results grouped by `sample_id` in encounter order. -/
def groupBySample (results : List BenchmarkResult) :
    List (String × List BenchmarkResult) :=
  results.foldl (fun gs r => if r.success then addToSampleGroup gs r else gs) []

/-- `BenchmarkEngine._update_elo_pair` (src/benchmarking_engine.py lines
357-367), abstracted to the database write it issues: `score > 0.5` writes
`(provider_a, provider_b)`, `score < 0.5` writes `(provider_b,
provider_a)`, a tie (`score == 0.5`) issues no write.  The k-factor of the
write is always `BENCHMARK_CONFIG["elo_k_factor"] = 32`. -/
def update_elo_pair (provider_a provider_b : String) (score : ℚ) :
    Option (String × String) :=
  if score > 1/2 then some (provider_a, provider_b)
  else if score < 1/2 then some (provider_b, provider_a)
  else none

/-- The body of the inner double loop (src/benchmarking_engine.py lines
349-355): strictly lower latency wins, equal latency scores 0.5. -/
def comparePair (result_a result_b : BenchmarkResult) : Option (String × String) :=
  if result_a.latency_ms < result_b.latency_ms then
    update_elo_pair result_a.provider result_b.provider 1
  else if result_b.latency_ms < result_a.latency_ms then
    update_elo_pair result_a.provider result_b.provider 0
  else update_elo_pair result_a.provider result_b.provider (1/2)

/-- The index pattern of the nested loops `for i in range(n): for j in
range(i+1, n)`: all ordered pairs `(l[i], l[j])` with `i < j`, in loop
order. -/
def pairsOf : List α → List (α × α)
  | [] => []
  | a :: rest => rest.map (fun b => (a, b)) ++ pairsOf rest

/-- The comparisons of one sample group (src/benchmarking_engine.py lines
339-355): groups with fewer than two results are skipped, otherwise every
`i < j` pair is compared. -/
def groupCalls (l : List BenchmarkResult) : List (String × String) :=
  if l.length < 2 then []
  else (pairsOf l).filterMap (fun ab => comparePair ab.1 ab.2)

/-- `BenchmarkEngine.update_elo_ratings` (src/benchmarking_engine.py lines
327-355), abstracted to the sequence of `db.update_elo_ratings(winner,
loser, 32)` calls it issues. -/
def update_elo_ratings (results : List BenchmarkResult) : List (String × String) :=
  ((groupBySample results).map (fun g => groupCalls g.2)).flatten

/-- One step of the error-type histogram (src/benchmarking_engine.py lines
233-237): `error_types[t] = error_types.get(t, 0) + 1`. -/
def bumpCount (h : List (String × ℕ)) (t : String) : List (String × ℕ) :=
  if h.any (fun e => e.1 == t) then
    h.map (fun e => if e.1 == t then (e.1, e.2 + 1) else e)
  else h ++ [(t, 1)]

/-- The error-type histogram of one provider's results: failed results
with a non-empty message, keyed by the message up to its first colon. -/
def errorTypes (rs : List BenchmarkResult) : List (String × ℕ) :=
  rs.foldl (fun h r =>
    if !r.success && !(r.error_message == "") then
      bumpCount h ((r.error_message.splitOn ":").headD "")
    else h) []

/-- The `BenchmarkSummary` dataclass (src/benchmarking_engine.py lines
42-55). -/
structure BenchmarkSummary where
  provider : String
  total_tests : ℕ
  success_rate : ℚ
  avg_latency_ms : ℚ
  median_latency_ms : ℚ
  p90_latency_ms : ℚ
  p95_latency_ms : ℚ
  p99_latency_ms : ℚ
  avg_file_size_bytes : ℚ
  total_errors : ℕ
  error_types : List (String × ℕ)

/-- The loop body of `calculate_summary_stats` (src/benchmarking_engine.py
lines 222-253) for one provider: latencies/file sizes of the successful
subset, with `[0]` substituted when there is no successful result. -/
def summarize (provider : String) (rs : List BenchmarkResult) : BenchmarkSummary :=
  let successful_results := rs.filter (fun r => r.success)
  let latencies :=
    if successful_results.isEmpty then [0]
    else successful_results.map (fun r => r.latency_ms)
  let file_sizes :=
    if successful_results.isEmpty then [0]
    else successful_results.map (fun r => r.file_size_bytes)
  { provider := provider
    total_tests := rs.length
    success_rate := (successful_results.length : ℚ) / (rs.length : ℚ) * 100
    avg_latency_ms := PyStats.mean latencies
    median_latency_ms := PyStats.median latencies
    p90_latency_ms := percentile latencies 90
    p95_latency_ms := percentile latencies 95
    p99_latency_ms := percentile latencies 99
    avg_file_size_bytes := PyStats.mean file_sizes
    total_errors := rs.length - successful_results.length
    error_types := errorTypes rs }

/-- One step of building the `provider_results` dict
(src/benchmarking_engine.py lines 216-220). -/
def addToProviderGroup (groups : List (String × List BenchmarkResult))
    (r : BenchmarkResult) : List (String × List BenchmarkResult) :=
  if groups.any (fun g => g.1 == r.provider) then
    groups.map (fun g => if g.1 == r.provider then (g.1, g.2 ++ [r]) else g)
  else groups ++ [(r.provider, [r])]

/-- The `provider_results` dict: all results grouped by provider in
encounter order. -/
def groupByProvider (results : List BenchmarkResult) :
    List (String × List BenchmarkResult) :=
  results.foldl addToProviderGroup []

/-- `BenchmarkEngine.calculate_summary_stats` (src/benchmarking_engine.py
lines 210-255): one summary per provider with at least one result (the
`continue` guard skips empty groups, which never arise). -/
def calculate_summary_stats (results : List BenchmarkResult) :
    List (String × BenchmarkSummary) :=
  (groupByProvider results).filterMap (fun g =>
    if g.2.isEmpty then none else some (g.1, summarize g.1 g.2))

end Engine

/-! ## Derived accessors, invariants, iteration, and concrete test data -/

/-- The `elo_ratings` row of a provider, with the lazily-created seed row
`(1500, 0, 0, 0)` as the value of an absent provider (absent and
freshly-initialised providers are indistinguishable to every reader). -/
def rowOf (s : DBState) (p : String) : EloRow :=
  (s.elo.lookup p).getD ⟨1500, 0, 0, 0⟩

/-- `games_played` of a provider (0 when the row does not exist yet). -/
def gamesOf (s : DBState) (p : String) : ℕ := (rowOf s p).games_played

/-- `wins` of a provider (0 when the row does not exist yet). -/
def winsOf (s : DBState) (p : String) : ℕ := (rowOf s p).wins

/-- `losses` of a provider (0 when the row does not exist yet). -/
def lossesOf (s : DBState) (p : String) : ℕ := (rowOf s p).losses

/-- The spec's rating-state invariant: `games_played == wins + losses` on
every `elo_ratings` row. -/
def EloInv (s : DBState) : Prop :=
  ∀ e ∈ s.elo, e.2.games_played = e.2.wins + e.2.losses

/-- `n` successive calls of `update_elo_ratings` with the same winner and
loser. -/
noncomputable def updateN (w l : String) (k : ℝ) : ℕ → DBState → DBState
  | 0, s => s
  | n + 1, s => updateN w l k n (DB.update_elo_ratings s w l k).1

/-- A database with all four tables empty. -/
def emptyDB : DBState := ⟨[], [], [], []⟩

/-- Blind-test sample by provider `elevenlabs`, labelled `A`. -/
def sampleEleven : BenchmarkResult :=
  ⟨"elevenlabs", "s1", "A", "Vanakkam", true, 90, 1400, ""⟩

/-- Blind-test sample by provider `murf`, labelled `B`. -/
def sampleMurf : BenchmarkResult :=
  ⟨"murf", "s1", "B", "Vanakkam", true, 120, 1300, ""⟩

/-- Blind-test sample by provider `google`, labelled `C`. -/
def sampleGoogle : BenchmarkResult :=
  ⟨"google", "s1", "C", "Vanakkam", true, 150, 1200, ""⟩

/-- A successful `murf` trial with latency 100 ms. -/
def trial100 : BenchmarkResult := ⟨"murf", "s2", "", "hello", true, 100, 1000, ""⟩

/-- A successful `murf` trial with latency 200 ms. -/
def trial200 : BenchmarkResult := ⟨"murf", "s2", "", "hello", true, 200, 2000, ""⟩

/-- Latency-race result: provider `alpha`, 100 ms. -/
def raceA : BenchmarkResult := ⟨"alpha", "race", "", "hi", true, 100, 500, ""⟩

/-- Latency-race result: provider `beta`, 200 ms. -/
def raceB : BenchmarkResult := ⟨"beta", "race", "", "hi", true, 200, 500, ""⟩

/-- Latency-race result: provider `gamma`, 200 ms (ties with `beta`). -/
def raceC : BenchmarkResult := ⟨"gamma", "race", "", "hi", true, 200, 500, ""⟩

/-- A failed `murf` trial (timeout). -/
def failedMurf : BenchmarkResult :=
  ⟨"murf", "s3", "", "hello", false, 0, 0, "Timeout: no response"⟩

/-! ## Association-list and rating-store lemmas -/

theorem lookup_map_ite {β : Type} (l : List (String × β)) (p q : String) (f : β → β) :
    (l.map (fun e => if e.1 == p then (e.1, f e.2) else e)).lookup q =
      if q = p then (l.lookup q).map f else l.lookup q := by
  induction l with
  | nil => simp
  | cons e t ih =>
    obtain ⟨k, b⟩ := e
    simp only [List.map_cons]
    cases hkp : (k == p) with
    | true =>
      have hkp' : k = p := by simpa using hkp
      rw [if_pos rfl]
      rw [List.lookup_cons, List.lookup_cons]
      cases hqk : (q == k) with
      | true =>
        have hqp : q = p := (by simpa using hqk : q = k).trans hkp'
        rw [if_pos hqp]
        rfl
      | false =>
        have hqp : ¬q = p := hkp' ▸ (by simpa using hqk : ¬q = k)
        rw [if_neg hqp, ih, if_neg hqp]
    | false =>
      have hkp' : ¬k = p := by simpa using hkp
      rw [if_neg (by simp)]
      rw [List.lookup_cons, List.lookup_cons]
      cases hqk : (q == k) with
      | true =>
        have hqp : ¬q = p := by
          rw [(by simpa using hqk : q = k)]; exact hkp'
        rw [if_neg hqp]
      | false =>
        rw [ih]

theorem lookup_init_elo (s : DBState) (p : String) (r : ℝ) (q : String) :
    (DB.init_elo_rating s p r).elo.lookup q =
      if q = p then ((s.elo.lookup p).or (some ⟨r, 0, 0, 0⟩)) else s.elo.lookup q := by
  unfold DB.init_elo_rating
  cases h : s.elo.lookup p with
  | some row =>
    simp only [h, Option.isSome_some, if_true]
    by_cases hqp : q = p
    · subst hqp; rw [if_pos rfl, h]; rfl
    · rw [if_neg hqp]
  | none =>
    simp only [h, Option.isSome_none, Bool.false_eq_true, if_false]
    rw [List.lookup_append]
    by_cases hqp : q = p
    · subst hqp; rw [if_pos rfl, h]; simp
    · rw [if_neg hqp]
      have hsing : ([(p, (⟨r, 0, 0, 0⟩ : EloRow))].lookup q) = none := by
        rw [List.lookup_cons]
        have : (q == p) = false := by simpa using hqp
        rw [this]
        rfl
      rw [hsing]
      cases s.elo.lookup q <;> rfl

theorem get_elo_fst_lookup (s : DBState) (p q : String) :
    ((DB.get_elo_rating s p).1).elo.lookup q =
      if q = p then ((s.elo.lookup p).or (some ⟨1500, 0, 0, 0⟩)) else s.elo.lookup q := by
  unfold DB.get_elo_rating
  cases h : s.elo.lookup p with
  | some row =>
    simp only [h]
    by_cases hqp : q = p
    · subst hqp; rw [if_pos rfl, h]; rfl
    · rw [if_neg hqp]
  | none =>
    simp only [h]
    rw [lookup_init_elo s p 1500 q, h]

theorem rowOf_get_elo (s : DBState) (p q : String) :
    rowOf ((DB.get_elo_rating s p).1) q = rowOf s q := by
  unfold rowOf
  rw [get_elo_fst_lookup]
  by_cases hqp : q = p
  · subst hqp
    cases h : s.elo.lookup q <;> simp [h]
  · rw [if_neg hqp]

theorem get_elo_snd (s : DBState) (p : String) :
    (DB.get_elo_rating s p).2 = (rowOf s p).rating := by
  unfold DB.get_elo_rating rowOf
  cases h : s.elo.lookup p <;> simp [h]

theorem updateEloRow_lookup (s : DBState) (p : String) (f : EloRow → EloRow) (q : String) :
    (DB.updateEloRow s p f).elo.lookup q =
      if q = p then (s.elo.lookup q).map f else s.elo.lookup q :=
  lookup_map_ite s.elo p q f

theorem init_elo_votes (s : DBState) (p : String) (r : ℝ) :
    (DB.init_elo_rating s p r).votes = s.votes := by
  unfold DB.init_elo_rating; split <;> rfl

theorem get_elo_fst_votes (s : DBState) (p : String) :
    ((DB.get_elo_rating s p).1).votes = s.votes := by
  unfold DB.get_elo_rating
  cases h : s.elo.lookup p
  · simpa using init_elo_votes s p 1500
  · rfl

theorem update_elo_votes (s : DBState) (w l : String) (k : ℝ) :
    (DB.update_elo_ratings s w l k).1.votes = s.votes := by
  show (DB.updateEloRow _ _ _).votes = s.votes
  show ((DB.get_elo_rating (DB.get_elo_rating s w).1 l).1).votes = s.votes
  rw [get_elo_fst_votes, get_elo_fst_votes]

theorem update_elo_returns (s : DBState) (w l : String) (k : ℝ) :
    (DB.update_elo_ratings s w l k).2 =
      ((DB.get_elo_rating s w).2 +
         k * (1 - DB.expected_score (DB.get_elo_rating s w).2
                    (DB.get_elo_rating (DB.get_elo_rating s w).1 l).2),
       (DB.get_elo_rating (DB.get_elo_rating s w).1 l).2 +
         k * (0 - DB.expected_score (DB.get_elo_rating (DB.get_elo_rating s w).1 l).2
                    (DB.get_elo_rating s w).2)) := rfl

theorem lookup_update_elo_winner (s : DBState) (w l : String) (k : ℝ) (h : w ≠ l) :
    ∃ x : ℝ, (DB.update_elo_ratings s w l k).1.elo.lookup w =
      some ⟨x, (rowOf s w).games_played + 1, (rowOf s w).wins + 1, (rowOf s w).losses⟩ := by
  refine ⟨(DB.update_elo_ratings s w l k).2.1, ?_⟩
  show (DB.updateEloRow (DB.updateEloRow (DB.get_elo_rating (DB.get_elo_rating s w).1 l).1
      w _) l _).elo.lookup w = _
  rw [updateEloRow_lookup, if_neg h, updateEloRow_lookup, if_pos rfl,
    get_elo_fst_lookup, if_neg h, get_elo_fst_lookup, if_pos rfl]
  cases hsw : s.elo.lookup w <;> simp [rowOf, hsw, update_elo_returns, get_elo_snd, rowOf, hsw]

theorem lookup_update_elo_loser (s : DBState) (w l : String) (k : ℝ) (h : w ≠ l) :
    ∃ x : ℝ, (DB.update_elo_ratings s w l k).1.elo.lookup l =
      some ⟨x, (rowOf s l).games_played + 1, (rowOf s l).wins, (rowOf s l).losses + 1⟩ := by
  have hlw : l ≠ w := h.symm
  refine ⟨(DB.update_elo_ratings s w l k).2.2, ?_⟩
  show (DB.updateEloRow (DB.updateEloRow (DB.get_elo_rating (DB.get_elo_rating s w).1 l).1
      w _) l _).elo.lookup l = _
  rw [updateEloRow_lookup, if_pos rfl, updateEloRow_lookup, if_neg hlw,
    get_elo_fst_lookup, if_pos rfl, get_elo_fst_lookup, if_neg hlw]
  cases hsl : s.elo.lookup l <;> simp [rowOf, hsl, update_elo_returns, get_elo_snd]

theorem counters_update_elo (s : DBState) (w l : String) (k : ℝ) (h : w ≠ l) :
    gamesOf (DB.update_elo_ratings s w l k).1 w = gamesOf s w + 1 ∧
    winsOf (DB.update_elo_ratings s w l k).1 w = winsOf s w + 1 ∧
    lossesOf (DB.update_elo_ratings s w l k).1 w = lossesOf s w ∧
    gamesOf (DB.update_elo_ratings s w l k).1 l = gamesOf s l + 1 ∧
    winsOf (DB.update_elo_ratings s w l k).1 l = winsOf s l ∧
    lossesOf (DB.update_elo_ratings s w l k).1 l = lossesOf s l + 1 := by
  obtain ⟨x, hx⟩ := lookup_update_elo_winner s w l k h
  obtain ⟨y, hy⟩ := lookup_update_elo_loser s w l k h
  unfold gamesOf winsOf lossesOf rowOf
  rw [hx, hy]
  simp [rowOf]

theorem eloInv_init (s : DBState) (p : String) (r : ℝ) (h : EloInv s) :
    EloInv (DB.init_elo_rating s p r) := by
  intro e he
  unfold DB.init_elo_rating at he
  split at he
  · exact h e he
  · rcases List.mem_append.mp he with h1 | h1
    · exact h e h1
    · simp at h1
      subst h1
      rfl

theorem eloInv_get (s : DBState) (p : String) (h : EloInv s) :
    EloInv ((DB.get_elo_rating s p).1) := by
  unfold DB.get_elo_rating
  cases hl : s.elo.lookup p
  · exact eloInv_init s p 1500 h
  · exact h

theorem eloInv_updateEloRow (s : DBState) (p : String) (f : EloRow → EloRow)
    (hf : ∀ r : EloRow, r.games_played = r.wins + r.losses →
      (f r).games_played = (f r).wins + (f r).losses)
    (h : EloInv s) : EloInv (DB.updateEloRow s p f) := by
  intro e he
  unfold DB.updateEloRow at he
  simp only at he
  rcases List.mem_map.mp he with ⟨a, ha, hae⟩
  by_cases hap : a.1 == p
  · rw [if_pos hap] at hae
    subst hae
    exact hf a.2 (h a ha)
  · rw [if_neg (by simpa using hap)] at hae
    subst hae
    exact h a ha

theorem eloInv_update_elo (s : DBState) (w l : String) (k : ℝ) (h : EloInv s) :
    EloInv (DB.update_elo_ratings s w l k).1 := by
  show EloInv (DB.updateEloRow (DB.updateEloRow
    (DB.get_elo_rating (DB.get_elo_rating s w).1 l).1 w _) l _)
  apply eloInv_updateEloRow
  · intro r hr
    simp
    omega
  apply eloInv_updateEloRow
  · intro r hr
    simp
    omega
  exact eloInv_get _ l (eloInv_get s w h)

theorem counters_updateN (w l : String) (k : ℝ) (h : w ≠ l) :
    ∀ (n : ℕ) (s : DBState),
    gamesOf (updateN w l k n s) w = gamesOf s w + n ∧
    winsOf (updateN w l k n s) w = winsOf s w + n ∧
    lossesOf (updateN w l k n s) w = lossesOf s w ∧
    gamesOf (updateN w l k n s) l = gamesOf s l + n ∧
    lossesOf (updateN w l k n s) l = lossesOf s l + n := by
  intro n
  induction n with
  | zero => intro s; simp [updateN]
  | succ m ih =>
    intro s
    obtain ⟨h1, h2, h3, h4, h5, h6⟩ := counters_update_elo s w l k h
    obtain ⟨g1, g2, g3, g4, g5⟩ := ih (DB.update_elo_ratings s w l k).1
    refine ⟨?_, ?_, ?_, ?_, ?_⟩ <;> simp [updateN, g1, g2, g3, g4, g5, h1, h2, h3, h4, h6] <;> omega

/-! ## Rating-engine arithmetic -/

theorem expected_complement (a b : ℝ) :
    DB.expected_score a b + DB.expected_score b a = 1 := by
  unfold DB.expected_score
  have hab : (0 : ℝ) < (10 : ℝ) ^ ((b - a) / 400) :=
    Real.rpow_pos_of_pos (by norm_num) _
  have hba : (0 : ℝ) < (10 : ℝ) ^ ((a - b) / 400) :=
    Real.rpow_pos_of_pos (by norm_num) _
  have hmul : (10 : ℝ) ^ ((b - a) / 400) * (10 : ℝ) ^ ((a - b) / 400) = 1 := by
    rw [← Real.rpow_add (by norm_num)]
    have h0 : (b - a) / 400 + (a - b) / 400 = 0 := by ring
    rw [h0, Real.rpow_zero]
  have h1 : (1 : ℝ) + (10 : ℝ) ^ ((b - a) / 400) ≠ 0 := by positivity
  have h2 : (1 : ℝ) + (10 : ℝ) ^ ((a - b) / 400) ≠ 0 := by positivity
  field_simp
  nlinarith [hmul]

theorem expected_eq_half (a : ℝ) : DB.expected_score a a = 1 / 2 := by
  unfold DB.expected_score
  have h0 : (a - a) / 400 = 0 := by ring
  rw [h0, Real.rpow_zero]
  norm_num

theorem get_elo_emptyDB_X : (DB.get_elo_rating emptyDB "X").2 = 1500 := rfl

theorem get_elo_emptyDB_Y :
    (DB.get_elo_rating (DB.get_elo_rating emptyDB "X").1 "Y").2 = 1500 := by
  rw [get_elo_snd, rowOf_get_elo]
  rfl

/-- C3: for any state, `update_elo_ratings` returns
`new_winner = Rw + k*(1 - expected_score(Rw, Rl))` and
`new_loser = Rl + k*(0 - expected_score(Rl, Rw))` where `Rw`, `Rl` are the
ratings read (lazily initialising); in particular starting from an empty
database (both providers seeded at 1500) with k = 32 the winner moves to
exactly 1516, the loser to exactly 1484, and both `games_played` counters
become 1. -/
theorem C3_elo_update_formula :
    (∀ (s : DBState) (w l : String) (k : ℝ),
      (DB.update_elo_ratings s w l k).2 =
        ((DB.get_elo_rating s w).2 +
           k * (1 - DB.expected_score (DB.get_elo_rating s w).2
                      (DB.get_elo_rating (DB.get_elo_rating s w).1 l).2),
         (DB.get_elo_rating (DB.get_elo_rating s w).1 l).2 +
           k * (0 - DB.expected_score (DB.get_elo_rating (DB.get_elo_rating s w).1 l).2
                      (DB.get_elo_rating s w).2))) ∧
    (DB.update_elo_ratings emptyDB "X" "Y" 32).2.1 = 1516 ∧
    (DB.update_elo_ratings emptyDB "X" "Y" 32).2.2 = 1484 ∧
    gamesOf (DB.update_elo_ratings emptyDB "X" "Y" 32).1 "X" = 1 ∧
    gamesOf (DB.update_elo_ratings emptyDB "X" "Y" 32).1 "Y" = 1 := by
  refine ⟨fun s w l k => update_elo_returns s w l k, ?_, ?_, ?_, ?_⟩
  · rw [show (DB.update_elo_ratings emptyDB "X" "Y" 32).2.1 =
        (DB.update_elo_ratings emptyDB "X" "Y" 32).2.1 from rfl,
      update_elo_returns, get_elo_emptyDB_X, get_elo_emptyDB_Y, expected_eq_half]
    norm_num
  · rw [show (DB.update_elo_ratings emptyDB "X" "Y" 32).2.2 =
        (DB.update_elo_ratings emptyDB "X" "Y" 32).2.2 from rfl,
      update_elo_returns, get_elo_emptyDB_X, get_elo_emptyDB_Y, expected_eq_half]
    norm_num
  · have h := (counters_update_elo emptyDB "X" "Y" 32 (by decide)).1
    simpa using h
  · have h := (counters_update_elo emptyDB "X" "Y" 32 (by decide)).2.2.2.1
    simpa using h

/-- C8: the expected-score function satisfies
`expected(A,B) + expected(B,A) = 1`, and consequently one pairwise update
transfers rating mass symmetrically: the winner's rating change is exactly
the negation of the loser's rating change (exactly, over `ℝ`). -/
theorem C8_single_pair_conservation :
    (∀ a b : ℝ, DB.expected_score a b + DB.expected_score b a = 1) ∧
    (∀ (s : DBState) (w l : String) (k : ℝ),
      (DB.update_elo_ratings s w l k).2.1 - (DB.get_elo_rating s w).2 =
        -((DB.update_elo_ratings s w l k).2.2 -
           (DB.get_elo_rating (DB.get_elo_rating s w).1 l).2)) := by
  refine ⟨expected_complement, fun s w l k => ?_⟩
  rw [update_elo_returns]
  have hc := expected_complement (DB.get_elo_rating s w).2
    (DB.get_elo_rating (DB.get_elo_rating s w).1 l).2
  linear_combination (-k) * hc

/-- C7: rating rows are created with `games_played = wins = losses = 0`;
`games_played = wins + losses` is preserved by every pairwise update; one
update adds exactly one game and one win to the winner and one game and
one loss to the loser; a tie issues no store write; and `n` updates with
the same winner grow the winner's games/wins and the loser's games/losses
by exactly `n`. -/
theorem C7_counter_invariants :
    (∀ (s : DBState) (p : String) (r : ℝ), s.elo.lookup p = none →
      (DB.init_elo_rating s p r).elo.lookup p = some ⟨r, 0, 0, 0⟩) ∧
    (∀ (s : DBState) (w l : String) (k : ℝ), EloInv s →
      EloInv (DB.update_elo_ratings s w l k).1) ∧
    (∀ (s : DBState) (w l : String) (k : ℝ), w ≠ l →
      gamesOf (DB.update_elo_ratings s w l k).1 w = gamesOf s w + 1 ∧
      winsOf (DB.update_elo_ratings s w l k).1 w = winsOf s w + 1 ∧
      lossesOf (DB.update_elo_ratings s w l k).1 w = lossesOf s w ∧
      gamesOf (DB.update_elo_ratings s w l k).1 l = gamesOf s l + 1 ∧
      lossesOf (DB.update_elo_ratings s w l k).1 l = lossesOf s l + 1) ∧
    (∀ a b : String, Engine.update_elo_pair a b (1/2) = none) ∧
    (∀ (w l : String) (k : ℝ) (n : ℕ) (s : DBState), w ≠ l →
      gamesOf (updateN w l k n s) w = gamesOf s w + n ∧
      winsOf (updateN w l k n s) w = winsOf s w + n ∧
      lossesOf (updateN w l k n s) w = lossesOf s w ∧
      gamesOf (updateN w l k n s) l = gamesOf s l + n ∧
      lossesOf (updateN w l k n s) l = lossesOf s l + n) := by
  refine ⟨?_, ?_, ?_, ?_, ?_⟩
  · intro s p r h
    rw [lookup_init_elo, if_pos rfl, h]
    rfl
  · intro s w l k h
    exact eloInv_update_elo s w l k h
  · intro s w l k h
    obtain ⟨h1, h2, h3, h4, h5, h6⟩ := counters_update_elo s w l k h
    exact ⟨h1, h2, h3, h4, h6⟩
  · intro a b
    norm_num [Engine.update_elo_pair]
  · intro w l k n s h
    exact counters_updateN w l k h n s

/-- Witness for C7 at concrete inputs: apply the theorem to the empty
database with providers `A` and `B` and `n = 2`. -/
theorem C7_counter_invariants_witness :
    ((emptyDB : DBState).elo.lookup "A" = none) ∧
    EloInv emptyDB ∧
    ("A" : String) ≠ "B" ∧
    (DB.init_elo_rating emptyDB "A" 1500).elo.lookup "A" = some ⟨1500, 0, 0, 0⟩ ∧
    EloInv (DB.update_elo_ratings emptyDB "A" "B" 32).1 ∧
    gamesOf (updateN "A" "B" 32 2 emptyDB) "A" = gamesOf emptyDB "A" + 2 :=
  ⟨rfl,
   fun e he => absurd he (List.not_mem_nil e),
   by decide,
   C7_counter_invariants.1 emptyDB "A" 1500 rfl,
   C7_counter_invariants.2.1 emptyDB "A" "B" 32
     (fun e he => absurd he (List.not_mem_nil e)),
   (C7_counter_invariants.2.2.2.2 "A" "B" 32 2 emptyDB (by decide)).1⟩

/-! ## Vote-handling lemmas -/

theorem app_get_elo_call_fails :
    callBinds get_elo_rating_sig app_get_elo_rating_call = false := by decide

theorem app_update_elo_call_fails :
    callBinds update_elo_ratings_sig app_update_elo_ratings_call = false := by decide

theorem app_save_vote_call_fails :
    callBinds save_user_vote_sig app_save_user_vote_call = false := by decide

theorem engine_update_elo_call_binds :
    callBinds update_elo_ratings_sig ⟨3, []⟩ = true := by decide

theorem voteTryBlock_raises (s : DBState) (w l : BenchmarkResult) (lang : String) (sv : Bool) :
    App.voteTryBlock s w l lang sv =
      .error "TypeError: get_elo_rating takes 2 positional arguments but 3 were given" := by
  unfold App.voteTryBlock
  rw [app_get_elo_call_fails]
  simp

theorem handle_vote_swallows (s : DBState) (w l : BenchmarkResult) (lang : String) (sv : Bool) :
    App.handle_blind_test_vote s w l lang sv =
      (s, some ("Error updating ratings: TypeError: get_elo_rating takes 2 positional arguments but 3 were given")) := by
  unfold App.handle_blind_test_vote
  rw [voteTryBlock_raises]
  rfl

theorem voteLoopStep_eq (w : BenchmarkResult) (lang : String)
    (acc : DBState × List String × List (String × String × Bool))
    (loser : BenchmarkResult) :
    App.voteLoopStep w lang acc loser =
      (acc.1,
       acc.2.1 ++ ["Error updating ratings: TypeError: get_elo_rating takes 2 positional arguments but 3 were given"],
       acc.2.2 ++ [(w.provider, loser.provider, false)]) := by
  unfold App.voteLoopStep
  rw [handle_vote_swallows]
  rfl

theorem voteLoop_eq (w : BenchmarkResult) (lang : String) :
    ∀ (losers : List BenchmarkResult) (s : DBState) (es : List String)
      (tr : List (String × String × Bool)),
      losers.foldl (App.voteLoopStep w lang) (s, es, tr) =
        (s,
         es ++ losers.map (fun _ =>
           "Error updating ratings: TypeError: get_elo_rating takes 2 positional arguments but 3 were given"),
         tr ++ losers.map (fun r => (w.provider, r.provider, false))) := by
  intro losers
  induction losers with
  | nil => intro s es tr; simp
  | cons a t ih =>
    intro s es tr
    rw [List.foldl_cons, voteLoopStep_eq, ih]
    simp

theorem submit_vote_eq (s : DBState) (samples : List BenchmarkResult) (sel lang : String) :
    App.submitBlindTestVote s samples sel lang =
      (s,
       match samples.find? (fun r => r.blind_label == sel) with
       | none => ([], [])
       | some w =>
         match samples.filter (fun r => !(r.blind_label == sel)) with
         | [] => ([], [])
         | loser0 :: rest =>
           ((loser0 :: rest).map (fun _ =>
              "Error updating ratings: TypeError: get_elo_rating takes 2 positional arguments but 3 were given") ++
             ["Error updating ratings: TypeError: get_elo_rating takes 2 positional arguments but 3 were given"],
            (loser0 :: rest).map (fun r => (w.provider, r.provider, false)) ++
             [(w.provider, loser0.provider, true)])) := by
  unfold App.submitBlindTestVote
  cases hf : samples.find? (fun r => r.blind_label == sel) with
  | none => rfl
  | some w =>
    cases hl : samples.filter (fun r => !(r.blind_label == sel)) with
    | nil => rfl
    | cons loser0 rest =>
      simp only [voteLoop_eq, handle_vote_swallows, List.nil_append, Option.toList_some]

/-- C1 (settles the claim as a code bug): a blind-test vote submission in
any language scope leaves the whole database unchanged — src/app.py passes
a `language` argument that `BenchmarkDatabase.get_elo_rating` does not
accept, so every database call of `handle_blind_test_vote` raises
`TypeError`, which the handler catches.  In particular the concrete Tamil
vote of the claim (`elevenlabs` over `murf`) updates no rating row of any
scope and records zero `UserVote` rows (the claim requires exactly one);
the only observable effect is the `st.error` messages. -/
theorem C1_tamil_vote_mutates_nothing :
    (∀ (s : DBState) (samples : List BenchmarkResult) (sel lang : String),
      (App.submitBlindTestVote s samples sel lang).1 = s) ∧
    (App.submitBlindTestVote emptyDB [sampleEleven, sampleMurf] "A" "Tamil").1.elo = [] ∧
    (App.submitBlindTestVote emptyDB [sampleEleven, sampleMurf] "A" "Tamil").1.votes = [] ∧
    (App.submitBlindTestVote emptyDB [sampleEleven, sampleMurf] "A" "Tamil").2.1 ≠ [] := by
  have hfst : ∀ (s : DBState) (samples : List BenchmarkResult) (sel lang : String),
      (App.submitBlindTestVote s samples sel lang).1 = s := by
    intro s samples sel lang
    rw [submit_vote_eq]
  refine ⟨hfst, ?_, ?_, ?_⟩
  · rw [hfst]; rfl
  · rw [hfst]; rfl
  · rw [submit_vote_eq]
    decide

/-- C2 (settles the claim as a code bug): over a 3-sample blind test the
vote-submission loop invokes the vote handler three times for the two
implied comparisons — the pair (winner, losers[0]) is attempted twice,
once in the loop and once more for the `save_vote=True` call — and,
because every database call raises `TypeError` (the `language` keyword is
not accepted), the rating store receives zero pairwise updates and zero
`UserVote` rows are persisted, against the claimed one-update-per-pair
and exactly-one-vote-row behaviour. -/
theorem C2_star_topology_double_update :
    (App.submitBlindTestVote emptyDB [sampleEleven, sampleMurf, sampleGoogle] "A" "Tamil").2.2 =
      [("elevenlabs", "murf", false), ("elevenlabs", "google", false),
       ("elevenlabs", "murf", true)] ∧
    ((App.submitBlindTestVote emptyDB [sampleEleven, sampleMurf, sampleGoogle] "A" "Tamil").2.2.filter
       (fun t => t.1 == "elevenlabs" && t.2.1 == "murf")).length = 2 ∧
    (App.submitBlindTestVote emptyDB [sampleEleven, sampleMurf, sampleGoogle] "A" "Tamil").1.votes.length = 0 := by
  rw [submit_vote_eq]
  refine ⟨?_, ?_, ?_⟩ <;> decide

/-- Counterexample to C4 as stated: on a concrete vote, the rating-store
call inside `handle_blind_test_vote` raises (`voteTryBlock` evaluates to
an exception), yet the handler returns a perfectly normal value — the
original state plus a displayed `st.error` message — so the error does
NOT propagate to the caller. -/
theorem C4_counterexample_swallowed :
    App.voteTryBlock emptyDB sampleEleven sampleMurf "Tamil" true =
      .error "TypeError: get_elo_rating takes 2 positional arguments but 3 were given" ∧
    App.handle_blind_test_vote emptyDB sampleEleven sampleMurf "Tamil" true =
      (emptyDB,
       some "Error updating ratings: TypeError: get_elo_rating takes 2 positional arguments but 3 were given") :=
  ⟨voteTryBlock_raises emptyDB sampleEleven sampleMurf "Tamil" true,
   handle_vote_swallows emptyDB sampleEleven sampleMurf "Tamil" true⟩

/-- C4 amended: when a rating-store operation raises during vote
processing, `handle_blind_test_vote` catches the exception, displays it
via `st.error`, and returns the state unchanged by the failed block — the
error is swallowed, not propagated to the caller. -/
theorem C4_amended_error_swallowed (s : DBState) (w l : BenchmarkResult)
    (lang : String) (sv : Bool) (e : String)
    (h : App.voteTryBlock s w l lang sv = .error e) :
    App.handle_blind_test_vote s w l lang sv =
      (s, some ("Error updating ratings: " ++ e)) := by
  unfold App.handle_blind_test_vote
  rw [h]

/-- Witness for the amended C4 at a concrete input. -/
theorem C4_amended_error_swallowed_witness :
    App.voteTryBlock emptyDB sampleEleven sampleMurf "all" false =
      .error "TypeError: get_elo_rating takes 2 positional arguments but 3 were given" ∧
    App.handle_blind_test_vote emptyDB sampleEleven sampleMurf "all" false =
      (emptyDB,
       some ("Error updating ratings: " ++
         "TypeError: get_elo_rating takes 2 positional arguments but 3 were given")) :=
  ⟨voteTryBlock_raises emptyDB sampleEleven sampleMurf "all" false,
   C4_amended_error_swallowed emptyDB sampleEleven sampleMurf "all" false _
     (voteTryBlock_raises emptyDB sampleEleven sampleMurf "all" false)⟩

/-- C5 (settles the claim as a code bug): after two successful `murf`
trials with latencies 100 and 200 (file sizes 1000 and 2000), the stored
running averages are 400/3 and 4000/3 — not the arithmetic means 150 and
1500 — because `update_provider_stats` multiplies the old average by the
already-incremented success count and divides by that count plus one.
The total/successful counters (2 and 2) are correct. -/
theorem C5_running_average_off_by_one :
    (DB.save_benchmark_result (DB.save_benchmark_result emptyDB trial100) trial200).stats.lookup "murf" =
      some ⟨2, 2, 400 / 3, 4000 / 3⟩ ∧
    (400 / 3 : ℚ) ≠ (100 + 200) / 2 := by
  refine ⟨?_, by norm_num⟩
  simp only [DB.save_benchmark_result, DB.update_provider_stats, emptyDB, trial100, trial200]
  norm_num [List.lookup]

/-! ## Latency-race comparison lemmas -/

theorem addToSampleGroup_same (sid : String) (acc : List BenchmarkResult)
    (r : BenchmarkResult) (h : r.sample_id = sid) :
    Engine.addToSampleGroup [(sid, acc)] r = [(sid, acc ++ [r])] := by
  unfold Engine.addToSampleGroup
  rw [h]
  simp

theorem groupBySample_foldl (sid : String) :
    ∀ (rs : List BenchmarkResult) (acc : List BenchmarkResult),
      (∀ r ∈ rs, r.success = true ∧ r.sample_id = sid) →
      rs.foldl (fun gs r => if r.success then Engine.addToSampleGroup gs r else gs)
        [(sid, acc)] = [(sid, acc ++ rs)] := by
  intro rs
  induction rs with
  | nil => intro acc _; simp
  | cons a t ih =>
    intro acc h
    obtain ⟨hs, hsid⟩ := h a (List.mem_cons_self a t)
    rw [List.foldl_cons, if_pos hs, addToSampleGroup_same sid acc a hsid,
      ih (acc ++ [a]) (fun r hr => h r (List.mem_cons_of_mem a hr))]
    simp

theorem groupBySample_same (sid : String) (rs : List BenchmarkResult)
    (h : ∀ r ∈ rs, r.success = true ∧ r.sample_id = sid) :
    Engine.groupBySample rs = if rs.isEmpty then [] else [(sid, rs)] := by
  cases rs with
  | nil => rfl
  | cons a t =>
    obtain ⟨hs, hsid⟩ := h a (List.mem_cons_self a t)
    unfold Engine.groupBySample
    rw [List.foldl_cons, if_pos hs]
    have hstep : Engine.addToSampleGroup [] a = [(sid, [a])] := by
      unfold Engine.addToSampleGroup
      simp [hsid]
    rw [hstep, groupBySample_foldl sid t [a]
      (fun r hr => h r (List.mem_cons_of_mem a hr))]
    simp

theorem pairsOf_short {α : Type} (l : List α) (h : l.length < 2) :
    Engine.pairsOf l = [] := by
  match l, h with
  | [], _ => rfl
  | [a], _ => rfl

theorem engine_update_elo_eq_pairs (rs : List BenchmarkResult) (sid : String)
    (h : ∀ r ∈ rs, r.success = true ∧ r.sample_id = sid) :
    Engine.update_elo_ratings rs =
      (Engine.pairsOf rs).filterMap (fun ab => Engine.comparePair ab.1 ab.2) := by
  unfold Engine.update_elo_ratings
  rw [groupBySample_same sid rs h]
  cases rs with
  | nil => rfl
  | cons a t =>
    simp only [List.isEmpty_cons, Bool.false_eq_true, if_false, List.map_cons,
      List.map_nil, List.flatten_cons, List.flatten_nil, List.append_nil]
    unfold Engine.groupCalls
    by_cases hlen : (a :: t).length < 2
    · rw [if_pos hlen, pairsOf_short _ hlen]
      rfl
    · rw [if_neg hlen]

theorem pairsOf_length {α : Type} : ∀ (l : List α),
    (Engine.pairsOf l).length = l.length.choose 2 := by
  intro l
  induction l with
  | nil => rfl
  | cons a t ih =>
    simp only [Engine.pairsOf, List.length_append, List.length_map, ih,
      List.length_cons]
    rw [Nat.choose_succ_succ, Nat.choose_one_right]

theorem mem_pairsOf {α : Type} : ∀ (l : List α) (i j : ℕ) (hij : i < j)
    (hj : j < l.length),
    (l.get ⟨i, lt_trans hij hj⟩, l.get ⟨j, hj⟩) ∈ Engine.pairsOf l := by
  intro l
  induction l with
  | nil => intro i j hij hj; simp at hj
  | cons a t ih =>
    intro i j hij hj
    match i, j, hij with
    | 0, j' + 1, _ =>
      apply List.mem_append_left
      have hj' : j' < t.length := by simpa using hj
      have : (a :: t).get ⟨j' + 1, hj⟩ = t.get ⟨j', hj'⟩ := rfl
      rw [this]
      exact List.mem_map_of_mem _ (t.get_mem _ _)
    | i' + 1, j' + 1, hij =>
      apply List.mem_append_right
      have hij' : i' < j' := Nat.succ_lt_succ_iff.mp hij
      have hj' : j' < t.length := by simpa using hj
      exact ih i' j' hij' hj'

theorem comparePair_spec (a b : BenchmarkResult) :
    (a.latency_ms < b.latency_ms →
      Engine.comparePair a b = some (a.provider, b.provider)) ∧
    (b.latency_ms < a.latency_ms →
      Engine.comparePair a b = some (b.provider, a.provider)) ∧
    (a.latency_ms = b.latency_ms → Engine.comparePair a b = none) := by
  unfold Engine.comparePair Engine.update_elo_pair
  refine ⟨?_, ?_, ?_⟩ <;> intro h
  · rw [if_pos h]
    norm_num
  · rw [if_neg (lt_asymm h), if_pos h]
    norm_num
  · rw [if_neg (h ▸ lt_irrefl _), if_neg (h ▸ lt_irrefl _)]
    norm_num

/-- C6: over a set of successful same-sample results, the automated
latency race compares exactly the `C(N,2)` index pairs `i < j` (the call
list equals one comparison per pair of the nested loops, and every index
pair is compared); for a pair with strictly lower latency on one side
exactly one store update is issued with the faster provider as winner,
and an equal-latency pair issues no store write. -/
theorem C6_latency_race_all_pairs (results : List BenchmarkResult) (sid : String)
    (h : ∀ r ∈ results, r.success = true ∧ r.sample_id = sid) :
    Engine.update_elo_ratings results =
      (Engine.pairsOf results).filterMap (fun ab => Engine.comparePair ab.1 ab.2) ∧
    (Engine.pairsOf results).length = results.length.choose 2 ∧
    (∀ (i j : ℕ) (hij : i < j) (hj : j < results.length),
      (results.get ⟨i, lt_trans hij hj⟩, results.get ⟨j, hj⟩) ∈
        Engine.pairsOf results) ∧
    (∀ a b : BenchmarkResult,
      (a.latency_ms < b.latency_ms →
        Engine.comparePair a b = some (a.provider, b.provider)) ∧
      (b.latency_ms < a.latency_ms →
        Engine.comparePair a b = some (b.provider, a.provider)) ∧
      (a.latency_ms = b.latency_ms → Engine.comparePair a b = none)) :=
  ⟨engine_update_elo_eq_pairs results sid h, pairsOf_length results,
   fun i j hij hj => mem_pairsOf results i j hij hj,
   comparePair_spec⟩

/-- Witness for C6 on the concrete race `alpha` (100 ms), `beta` (200 ms),
`gamma` (200 ms): the hypotheses hold, the theorem applies, and the
resulting store-call list is `alpha` beating `beta` and `gamma` while the
tied pair `beta`/`gamma` issues no write. -/
theorem C6_latency_race_all_pairs_witness :
    (∀ r ∈ [raceA, raceB, raceC], r.success = true ∧ r.sample_id = "race") ∧
    Engine.update_elo_ratings [raceA, raceB, raceC] =
      (Engine.pairsOf [raceA, raceB, raceC]).filterMap
        (fun ab => Engine.comparePair ab.1 ab.2) ∧
    Engine.update_elo_ratings [raceA, raceB, raceC] =
      [("alpha", "beta"), ("alpha", "gamma")] :=
  ⟨by decide,
   (C6_latency_race_all_pairs [raceA, raceB, raceC] "race" (by decide)).1,
   by
    rw [engine_update_elo_eq_pairs [raceA, raceB, raceC] "race" (by decide)]
    norm_num [Engine.pairsOf, Engine.comparePair, Engine.update_elo_pair,
      raceA, raceB, raceC, List.filterMap_cons]⟩

/-! ## Percentile lemmas -/

theorem pyInt_eq_floor (q : ℚ) (h : 0 ≤ q) : pyInt q = ⌊q⌋ := by
  unfold pyInt
  rw [Rat.floor_def]
  exact Int.tdiv_eq_ediv (Rat.num_nonneg.mpr h) (Int.natCast_nonneg q.den)

theorem isInteger_true_iff (q : ℚ) : isInteger q = true ↔ (⌊q⌋ : ℚ) = q := by
  unfold isInteger
  rw [beq_iff_eq]
  constructor
  · intro h
    have h2 : (q.num : ℚ) = q := Rat.coe_int_num_of_den_eq_one h
    rw [← h2, Int.floor_intCast]
  · intro h
    have hd : q.den = ((⌊q⌋ : ℚ) : ℚ).den := by rw [h]
    rw [hd, Rat.den_intCast]

theorem ceil_of_not_integer (q : ℚ) (h : isInteger q = false) : ⌈q⌉ = ⌊q⌋ + 1 := by
  have hne : (⌊q⌋ : ℚ) ≠ q := by
    intro heq
    have htrue := (isInteger_true_iff q).mpr heq
    rw [h] at htrue
    exact Bool.false_ne_true htrue
  have h1 : ⌈q⌉ ≤ ⌊q⌋ + 1 := Int.ceil_le_floor_add_one q
  have hlt : (⌊q⌋ : ℚ) < q := lt_of_le_of_ne (Int.floor_le q) hne
  have hlt2 : ((⌊q⌋ : ℤ) : ℚ) < ((⌈q⌉ : ℤ) : ℚ) := lt_of_lt_of_le hlt (Int.le_ceil q)
  have h2 : ⌊q⌋ < ⌈q⌉ := by exact_mod_cast hlt2
  omega

theorem percentile_eq_spec (data : List ℚ) (p : ℚ) (hd : data ≠ []) (hp : 0 ≤ p) :
    Engine.percentile data p = Engine.percentileSpec data p := by
  unfold Engine.percentile Engine.percentileSpec
  rw [if_neg (by simpa using hd)]
  dsimp only
  have hlen : (pySorted data).length = data.length :=
    (List.perm_insertionSort _ data).length_eq
  have hn : 1 ≤ data.length := by
    cases data with
    | nil => exact absurd rfl hd
    | cons a t => simp
  have hinz : 0 ≤ (p / 100) * (((pySorted data).length : ℚ) - 1) := by
    apply mul_nonneg (div_nonneg hp (by norm_num))
    rw [hlen]
    have hcast : (1 : ℚ) ≤ (data.length : ℚ) := by exact_mod_cast hn
    linarith
  rw [pyInt_eq_floor _ hinz]
  by_cases hint : isInteger ((p / 100) * (((pySorted data).length : ℚ) - 1))
  · rw [if_pos hint]
    have hq := (isInteger_true_iff _).mp hint
    rw [show (p / 100) * (((pySorted data).length : ℚ) - 1) -
        ((⌊(p / 100) * (((pySorted data).length : ℚ) - 1)⌋ : ℤ) : ℚ) = 0 by rw [hq]; ring]
    ring
  · rw [if_neg hint]
    rw [ceil_of_not_integer _ (Bool.not_eq_true _ ▸ hint)]

theorem pySorted_concrete : pySorted [10, 20, 30, 40, 50] = [10, 20, 30, 40, 50] := by
  norm_num [pySorted, List.insertionSort, List.orderedInsert]

theorem percentile_50_concrete : Engine.percentile [10, 20, 30, 40, 50] 50 = 30 := by
  rw [percentile_eq_spec _ _ (by simp) (by norm_num)]
  unfold Engine.percentileSpec
  dsimp only
  rw [pySorted_concrete]
  have hidx : (50 / 100 : ℚ) * (((5 : ℕ) : ℚ) - 1) = 2 := by norm_num
  simp only [List.length_cons, List.length_nil, hidx]
  have hf : ⌊(2 : ℚ)⌋ = 2 := by norm_num
  have hc : ⌈(2 : ℚ)⌉ = 2 := by norm_num
  rw [hf, hc]
  have g2 : getQ [10, 20, 30, 40, 50] 2 = 30 := rfl
  rw [g2]
  norm_num

theorem percentile_90_concrete : Engine.percentile [10, 20, 30, 40, 50] 90 = 46 := by
  rw [percentile_eq_spec _ _ (by simp) (by norm_num)]
  unfold Engine.percentileSpec
  dsimp only
  rw [pySorted_concrete]
  have hidx : (90 / 100 : ℚ) * (((5 : ℕ) : ℚ) - 1) = 18 / 5 := by norm_num
  simp only [List.length_cons, List.length_nil, hidx]
  have hf : ⌊(18 / 5 : ℚ)⌋ = 3 := by norm_num [Int.floor_eq_iff]
  have hc : ⌈(18 / 5 : ℚ)⌉ = 4 := by norm_num [Int.ceil_eq_iff]
  rw [hf, hc]
  have g3 : getQ [10, 20, 30, 40, 50] 3 = 40 := rfl
  have g4 : getQ [10, 20, 30, 40, 50] 4 = 50 := rfl
  rw [g3, g4]
  norm_num

/-- C9: for non-empty data and percentile `p ≥ 0` the implementation
agrees with the spec's "nearest-rank with interpolation" method (index
`p/100*(n-1)` over the 0-indexed sorted array, exact element when the
index is integral, linear interpolation between the floor and ceil
neighbours otherwise); for `[10,20,30,40,50]`, p50 = 30 and p90 = 46, and
the first/last elements of the sorted array are the minimum and maximum. -/
theorem C9_percentile_method (data : List ℚ) (p : ℚ) (hd : data ≠ []) (hp : 0 ≤ p) :
    Engine.percentile data p = Engine.percentileSpec data p ∧
    Engine.percentile [10, 20, 30, 40, 50] 50 = 30 ∧
    Engine.percentile [10, 20, 30, 40, 50] 90 = 46 ∧
    (pySorted [10, 20, 30, 40, 50]).head? = ([10, 20, 30, 40, 50] : List ℚ).min? ∧
    (pySorted [10, 20, 30, 40, 50]).getLast? = ([10, 20, 30, 40, 50] : List ℚ).max? := by
  refine ⟨percentile_eq_spec data p hd hp, percentile_50_concrete,
    percentile_90_concrete, ?_, ?_⟩
  · rw [pySorted_concrete]
    decide
  · rw [pySorted_concrete]
    decide

/-- Witness for C9 at the concrete input `[10,20,30,40,50]`, p = 90. -/
theorem C9_percentile_method_witness :
    (([10, 20, 30, 40, 50] : List ℚ) ≠ []) ∧ ((0 : ℚ) ≤ 90) ∧
    Engine.percentile [10, 20, 30, 40, 50] 90 =
      Engine.percentileSpec [10, 20, 30, 40, 50] 90 :=
  ⟨by decide, by norm_num,
   (C9_percentile_method [10, 20, 30, 40, 50] 90 (by decide) (by norm_num)).1⟩

/-! ## Summary-statistics lemmas -/

theorem lookup_calculate_summary (groups : List (String × List BenchmarkResult))
    (p : String) (rs : List BenchmarkResult)
    (h : groups.lookup p = some rs) (hne : rs ≠ []) :
    (groups.filterMap (fun g =>
        if g.2.isEmpty then none else some (g.1, Engine.summarize g.1 g.2))).lookup p =
      some (Engine.summarize p rs) := by
  induction groups with
  | nil => simp at h
  | cons g t ih =>
    obtain ⟨k, l⟩ := g
    rw [List.lookup_cons] at h
    cases hqk : (p == k) with
    | true =>
      rw [hqk] at h
      have hl : l = rs := by injection h
      subst hl
      have hk : p = k := by simpa using hqk
      rw [List.filterMap_cons]
      rw [if_neg (by simpa using hne)]
      rw [List.lookup_cons, hqk, hk]
    | false =>
      rw [hqk] at h
      rw [List.filterMap_cons]
      by_cases hemp : l.isEmpty
      · rw [if_pos hemp]
        exact ih h
      · rw [if_neg hemp, List.lookup_cons, hqk]
        exact ih h

theorem percentile_singleton (p : ℚ) (hp : 0 ≤ p) : Engine.percentile [0] p = 0 := by
  rw [percentile_eq_spec [0] p (by simp) hp]
  unfold Engine.percentileSpec
  dsimp only
  have hs : pySorted [0] = [0] := rfl
  rw [hs]
  simp only [List.length_cons, List.length_nil]
  have hidx : (p / 100) * (((0 + 1 : ℕ) : ℚ) - 1) = 0 := by norm_num
  rw [hidx]
  have hf : ⌊(0 : ℚ)⌋ = 0 := by norm_num
  have hc : ⌈(0 : ℚ)⌉ = 0 := by norm_num
  rw [hf, hc]
  have g0 : getQ [0] 0 = 0 := rfl
  rw [g0]
  norm_num

/-- C10: a provider whose results are all failures is still summarised:
its group is kept (not omitted), `success_rate` is 0, `total_errors`
equals its total test count, and all latency statistics and the average
file size are 0 (they are computed over the substituted singleton `[0]`
list). -/
theorem C10_all_failures_summary (results : List BenchmarkResult) (p : String)
    (rs : List BenchmarkResult)
    (hg : (Engine.groupByProvider results).lookup p = some rs)
    (hne : rs ≠ [])
    (hf : ∀ r ∈ rs, r.success = false) :
    (Engine.calculate_summary_stats results).lookup p = some (Engine.summarize p rs) ∧
    (Engine.summarize p rs).success_rate = 0 ∧
    (Engine.summarize p rs).total_tests = rs.length ∧
    (Engine.summarize p rs).total_errors = rs.length ∧
    (Engine.summarize p rs).avg_latency_ms = 0 ∧
    (Engine.summarize p rs).median_latency_ms = 0 ∧
    (Engine.summarize p rs).p90_latency_ms = 0 ∧
    (Engine.summarize p rs).p95_latency_ms = 0 ∧
    (Engine.summarize p rs).p99_latency_ms = 0 ∧
    (Engine.summarize p rs).avg_file_size_bytes = 0 := by
  have hfilter : rs.filter (fun r => r.success) = [] := by
    rw [List.filter_eq_nil_iff]
    intro a ha
    simp [hf a ha]
  have hmean : PyStats.mean [0] = 0 := by norm_num [PyStats.mean]
  have hmed : PyStats.median [0] = 0 := rfl
  have h90 : Engine.percentile [0] 90 = 0 := percentile_singleton 90 (by norm_num)
  have h95 : Engine.percentile [0] 95 = 0 := percentile_singleton 95 (by norm_num)
  have h99 : Engine.percentile [0] 99 = 0 := percentile_singleton 99 (by norm_num)
  refine ⟨lookup_calculate_summary _ p rs hg hne, ?_, ?_, ?_, ?_, ?_, ?_, ?_, ?_, ?_⟩ <;>
    unfold Engine.summarize <;>
    simp [hfilter, hmean, hmed, h90, h95, h99]

/-- Witness for C10: two failed `murf` trials. -/
theorem C10_all_failures_summary_witness :
    ((Engine.groupByProvider [failedMurf, failedMurf]).lookup "murf" =
      some [failedMurf, failedMurf]) ∧
    ([failedMurf, failedMurf] ≠ ([] : List BenchmarkResult)) ∧
    (∀ r ∈ [failedMurf, failedMurf], r.success = false) ∧
    (Engine.calculate_summary_stats [failedMurf, failedMurf]).lookup "murf" =
      some (Engine.summarize "murf" [failedMurf, failedMurf]) ∧
    (Engine.summarize "murf" [failedMurf, failedMurf]).success_rate = 0 ∧
    (Engine.summarize "murf" [failedMurf, failedMurf]).total_errors = 2 :=
  ⟨by decide, by decide, by decide,
   (C10_all_failures_summary [failedMurf, failedMurf] "murf" [failedMurf, failedMurf]
     (by decide) (by decide) (by decide)).1,
   (C10_all_failures_summary [failedMurf, failedMurf] "murf" [failedMurf, failedMurf]
     (by decide) (by decide) (by decide)).2.1,
   (C10_all_failures_summary [failedMurf, failedMurf] "murf" [failedMurf, failedMurf]
     (by decide) (by decide) (by decide)).2.2.2.1⟩
